import Mathlib

/-!
# NetworkLLM — verification of spec claims against `src/main.py`

Shallow embedding of the NetworkLLM pipeline (`main.py`): the supported
device-type table, the credential store (`save_credentials` /
`load_credentials`), the session gateway error classification
(`connect_to_device`), the two language-model prompt builders
(`get_command_from_llm` / `summarize_output_with_llm`), the argparse
front-end and the `main` orchestrator.  External collaborators (the
filesystem, the language-model API, the netmiko transport, stdin) are
modelled as explicit oracle inputs; `main` is embedded as a pure function
from those oracles to an event trace plus the final credential-file state.
-/

set_option autoImplicit false

namespace NetworkLLM

/-- `SUPPORTED_DEVICE_TYPES` (main.py lines 22-29): internal tag ↦ label. -/
def SUPPORTED_DEVICE_TYPES : List (String × String) :=
  [("cisco_ios", "Cisco IOS"),
   ("cisco_nxos", "Cisco NXOS"),
   ("arista_eos", "Arista EOS"),
   ("juniper_junos", "Juniper JUNOS"),
   ("fortinet", "Fortinet"),
   ("paloalto_panos", "Palo Alto PAN-OS")]

/-- Python `device_type in SUPPORTED_DEVICE_TYPES` (key membership). -/
def supportedTag (dt : String) : Bool :=
  SUPPORTED_DEVICE_TYPES.any (fun kv => kv.1 = dt)

/-- Python `SUPPORTED_DEVICE_TYPES[device_type]`; only evaluated on tags that
argparse has already validated, so the `getD` default is unreachable in `main`. -/
def deviceLabel (dt : String) : String :=
  ((SUPPORTED_DEVICE_TYPES.find? (fun kv => kv.1 = dt)).map (fun kv => kv.2)).getD ""

/-- Python `', '.join(SUPPORTED_DEVICE_TYPES.keys())`. -/
def supportedKeysJoined : String :=
  String.intercalate ", " (SUPPORTED_DEVICE_TYPES.map (fun kv => kv.1))

/-- Exceptions that can cross the boundaries the claims talk about. -/
inductive PyExc where
  | valueError (msg : String)
  | connectionError (msg : String)
  | netMikoTimeout (msg : String)
  | netMikoAuth (msg : String)
  | otherExc (msg : String)
  deriving DecidableEq, Repr

/-- Python `str(e)` (the text `print(f"Error: {e}")` shows). -/
def pyExcStr : PyExc → String
  | .valueError m => m
  | .connectionError m => m
  | .netMikoTimeout m => m
  | .netMikoAuth m => m
  | .otherExc m => m

/-! ## Credential store (main.py lines 33-54)

The backing file `CREDENTIALS_FILE` is modelled by `CredFile`: missing,
present-but-unparseable, or a parsed JSON object.  A JSON object is an
association list with unique keys; `dictInsert` has Python dict-assignment
semantics (overwrite in place if the key exists, append otherwise) and
`dictLookup` is key lookup. -/

/-- One credential table: host ↦ (username, password). -/
abbrev CredTable := List (String × String × String)

/-- Python `creds[host] = {...}`: replace in place when the key exists,
append when it does not (dict insertion-order semantics). -/
def dictInsert (t : CredTable) (k : String) (v : String × String) : CredTable :=
  if t.any (fun p => p.1 = k) then
    t.map (fun p => if p.1 = k then (k, v) else p)
  else
    t ++ [(k, v)]

/-- Python `creds[host]` read, guarded by `host in creds`. -/
def dictLookup (t : CredTable) (k : String) : Option (String × String) :=
  (t.find? (fun p => p.1 = k)).map (fun p => p.2)

/-- State of `CREDENTIALS_FILE` on disk. -/
inductive CredFile where
  | missing
  | corrupt
  | table (t : CredTable)
  deriving DecidableEq, Repr

/-- The table `save_credentials` starts from: `{}` when the file is missing,
`{}` when `json.load` raises, the parsed table otherwise (lines 34-40). -/
def readTable : CredFile → CredTable
  | .missing => []
  | .corrupt => []
  | .table t => t

/-- `save_credentials(username, password, host)` (lines 33-43) as a transformer
of the file state: read-modify-write of the whole table. -/
def save_credentials (username password host : String) (f : CredFile) : CredFile :=
  .table (dictInsert (readTable f) host (username, password))

/-- `load_credentials(host)` (lines 45-54): `(None, None)` when the file is
missing, unparseable, or lacks the host; the stored pair otherwise. Total —
every exception path is caught in the source. -/
def load_credentials (host : String) (f : CredFile) : Option String × Option String :=
  match f with
  | .missing => (none, none)
  | .corrupt => (none, none)
  | .table t =>
    match dictLookup t host with
    | some (u, p) => (some u, some p)
    | none => (none, none)

/-! ## Device profile construction (main.py lines 56-78) -/

/-- `self.device_info` as built by `NetworkQueryProcessor.__init__`. -/
structure DeviceInfo where
  device_type : String
  host : String
  username : String
  password : String
  port : Nat
  deriving DecidableEq, Repr

/-- The `ValueError` message of `__init__` (line 78). -/
def unsupportedTypeMsg : String :=
  "Unsupported device type. Supported types: " ++ supportedKeysJoined

/-- `NetworkQueryProcessor.__init__` (lines 57-78): builds `device_info`,
then validates the tag against the supported table and raises `ValueError`
for an unrecognized tag. No transport object is touched. -/
def NetworkQueryProcessor_init (device_type host username password : String)
    (port : Nat) : Except PyExc DeviceInfo :=
  if supportedTag device_type then
    .ok { device_type := device_type, host := host, username := username,
          password := password, port := port }
  else
    .error (.valueError unsupportedTypeMsg)

/-! ## Session gateway error classification (main.py lines 80-97) -/

/-- Outcome of the underlying `ConnectHandler(**device_info)` call, the
transport oracle: success, or one of the transport exceptions. -/
inductive ConnectOutcome where
  | ok
  | timeout
  | authFail
  | otherError (msg : String)
  deriving DecidableEq, Repr

/-- Message raised on `NetMikoTimeoutException` (line 93). -/
def timeoutMsg (host : String) : String :=
  "Connection to " ++ host ++ " timed out"

/-- Message raised on `NetMikoAuthenticationException` (line 95). -/
def authFailMsg (host : String) : String :=
  "Authentication failed for " ++ host

/-- Message raised on any other `Exception` (line 97). -/
def otherFailMsg (host msg : String) : String :=
  "Failed to connect to " ++ host ++ ": " ++ msg

/-- `connect_to_device` (lines 80-97): every transport exception is caught
and re-raised as a `ConnectionError` with a kind-specific message. -/
def connect_to_device (host : String) : ConnectOutcome → Except PyExc Unit
  | .ok => .ok ()
  | .timeout => .error (.connectionError (timeoutMsg host))
  | .authFail => .error (.connectionError (authFailMsg host))
  | .otherError m => .error (.connectionError (otherFailMsg host m))

/-! ## Language-model collaborator (main.py lines 99-139)

`client.chat.completions.create` is a black box; its observable input is the
message list (a fixed system message plus one user message) and it either
returns a completion text or raises.  The oracle is a function from the
request to `Except String String` (error message or
`completion.choices[0].message.content`). -/

/-- The message list passed to `client.chat.completions.create`. -/
structure ChatRequest where
  system : String
  user : String
  deriving DecidableEq, Repr

/-- The language-model oracle. -/
abbrev LLMOracle := ChatRequest → Except String String

/-- The request built by `get_command_from_llm` (lines 103-116): the `prompt`
f-string is the user message. -/
def commandRequest (nl_query device_type : String) : ChatRequest :=
  { system := "You are a helpful network automation assistant.",
    user := "You are a network automation assistant. Given the following request for a "
      ++ deviceLabel device_type
      ++ " device, generate the most relevant CLI command. Only output the command, nothing else.\nRequest: "
      ++ nl_query }

/-- `get_command_from_llm` (lines 99-118): one completion call, returns the
trimmed first-choice content; any API failure propagates. -/
def get_command_from_llm (llm : LLMOracle) (nl_query device_type : String) :
    Except String String :=
  (llm (commandRequest nl_query device_type)).map String.trim

/-- The request built by `summarize_output_with_llm` (lines 124-137): the
`prompt` f-string embeds the command, the device label and the whole raw
output, which is its final segment — verbatim, untruncated. -/
def summarizeRequest (command output device_type : String) : ChatRequest :=
  { system := "You are a helpful network expert.",
    user := "You are a network expert. Summarize the following output from the command '"
      ++ command ++ "' on a " ++ deviceLabel device_type
      ++ " device in a concise, user-friendly way.\nOutput:\n" ++ output }

/-- `summarize_output_with_llm` (lines 120-139). -/
def summarize_output_with_llm (llm : LLMOracle) (command output device_type : String) :
    Except String String :=
  (llm (summarizeRequest command output device_type)).map String.trim

/-! ## Argparse front-end (main.py lines 142-148)

`--device_type`, `--host` and `--username` all carry `required=True`;
`--device_type` additionally carries `choices=SUPPORTED_DEVICE_TYPES.keys()`.
A missing required flag or an out-of-choices value makes `parse_args` print a
usage error and exit before any of `main`'s body runs.  (The exact argparse
message texts are immaterial; what matters is which inputs are rejected.) -/

/-- The command line: which flags were supplied, with their values. -/
structure CLIInput where
  device_type : Option String
  host : Option String
  username : Option String
  port : Option Nat
  password : Option String
  deriving Repr

/-- The namespace produced by a successful `parser.parse_args()`. -/
structure Args where
  device_type : String
  host : String
  username : String
  port : Nat
  password : Option String
  deriving DecidableEq, Repr

/-- `parser.parse_args()` (lines 143-148): rejects an unsupported
`--device_type` (the `choices` constraint) and any omitted required flag;
`--port` defaults to 22; `--password` stays optional. -/
def parseArgs (c : CLIInput) : Except String Args :=
  match c.device_type with
  | none => .error "the following arguments are required: --device_type"
  | some dt =>
    if supportedTag dt then
      match c.host with
      | none => .error "the following arguments are required: --host"
      | some h =>
        match c.username with
        | none => .error "the following arguments are required: --username"
        | some u =>
          .ok { device_type := dt, host := h, username := u,
                port := c.port.getD 22, password := c.password }
    else
      .error ("argument --device_type: invalid choice: " ++ dt)

/-! ## The orchestrator `main` (main.py lines 141-181) -/

/-- Python truthiness-based `a or b` on optional strings (`None` and `""` are
falsy), as used at lines 151-152. -/
def pyOr (a b : Option String) : Option String :=
  match a with
  | some s => if s = "" then b else some s
  | none => b

/-- Python `not x` truthiness test on an optional string (lines 153, 155). -/
def pyFalsy (a : Option String) : Bool :=
  match a with
  | some s => s = ""
  | none => true

/-- Observable events of one `main` invocation, in program order. -/
inductive Ev where
  | argparseExit (msg : String)
  | promptUser
  | promptPass
  | saveCreds (username password host : String)
  | readQuery
  | uncaughtExc (e : PyExc)
  | print (line : String)
  | llmSynth (req : ChatRequest)
  | connectAttempt (host : String)
  | sendCmd (command : String)
  | disconnect
  | llmSummarize (req : ChatRequest)
  | printError (msg : String)
  deriving DecidableEq, Repr

/-- All external inputs one invocation of `main` can consume. -/
structure MainWorld where
  cli : CLIInput
  fs : CredFile
  stdinUser : String
  stdinPass : String
  stdinQuery : String
  llm : LLMOracle
  connectOutcome : ConnectOutcome
  sendOutcome : Except String String
  disconnectOutcome : Except String Unit

/-- Credential resolution, username (lines 150-154): `args.username or
stored_username`, then an interactive prompt if still falsy. -/
def resolvedUsername (w : MainWorld) (args : Args) : String :=
  let u0 := pyOr (some args.username) (load_credentials args.host w.fs).1
  if pyFalsy u0 then w.stdinUser else u0.getD ""

/-- Credential resolution, password (lines 150-156): `args.password or
stored_password`, then a masked prompt if still falsy. -/
def resolvedPassword (w : MainWorld) (args : Args) : String :=
  let p0 := pyOr args.password (load_credentials args.host w.fs).2
  if pyFalsy p0 then w.stdinPass else p0.getD ""

/-- The interactive prompts credential resolution performs (lines 153-156). -/
def credPromptEvents (w : MainWorld) (args : Args) : List Ev :=
  (if pyFalsy (pyOr (some args.username) (load_credentials args.host w.fs).1)
    then [Ev.promptUser] else [])
  ++ (if pyFalsy (pyOr args.password (load_credentials args.host w.fs).2)
    then [Ev.promptPass] else [])

/-- The body of `main`'s `try` block (lines 168-181): synthesize, connect,
execute, show raw output, disconnect, summarize; the first exception is
caught by the single `except` and printed as `Error: {e}` (`printError`). -/
def runPipeline (w : MainWorld) (device_type host query : String) : List Ev :=
  Ev.llmSynth (commandRequest query device_type) ::
  match get_command_from_llm w.llm query device_type with
  | .error e => [.printError e]
  | .ok command =>
    .print ("\nGenerated command: " ++ command ++ "\n") ::
    .print ("Connecting to " ++ host ++ "...") ::
    .connectAttempt host ::
    match connect_to_device host w.connectOutcome with
    | .error ex => [.printError (pyExcStr ex)]
    | .ok _ =>
      .print ("Successfully connected to " ++ host) ::
      .print ("Running command: " ++ command) ::
      .sendCmd command ::
      match w.sendOutcome with
      | .error e => [.printError e]
      | .ok output =>
        .print "\n--- Raw Command Output ---\n" ::
        .print output ::
        .disconnect ::
        match w.disconnectOutcome with
        | .error e => [.printError e]
        | .ok _ =>
          .llmSummarize (summarizeRequest command output device_type) ::
          match summarize_output_with_llm w.llm command output device_type with
          | .error e => [.printError e]
          | .ok summary => [.print "\n--- LLM Summary ---\n", .print summary]

/-- `main` (lines 141-181): argparse, credential resolution, persist, read
the natural-language query, construct the processor (validation outside the
`try`: a `ValueError` there would propagate uncaught, though argparse's
`choices` makes that branch unreachable), then the `try` block.  Returns the
event trace and the final credential-file state. -/
def runMain (w : MainWorld) : List Ev × CredFile :=
  match parseArgs w.cli with
  | .error m => ([.argparseExit m], w.fs)
  | .ok args =>
    let username := resolvedUsername w args
    let password := resolvedPassword w args
    let fs1 := save_credentials username password args.host w.fs
    let evs := credPromptEvents w args ++ [Ev.saveCreds username password args.host, Ev.readQuery]
    match NetworkQueryProcessor_init args.device_type args.host username password args.port with
    | .error ex => (evs ++ [.uncaughtExc ex], fs1)
    | .ok _ => (evs ++ runPipeline w args.device_type args.host w.stdinQuery, fs1)

/-- Recognizes the `except` handler's `print(f"Error: {e}")` event. -/
def isErrorPrint : Ev → Bool
  | .printError _ => true
  | _ => false

/-- The first exception raised inside `main`'s `try` block, if any — the
"triggering error" of spec section 7, recomputed from the same collaborator
outcomes `runPipeline` consumes. -/
def pipelineError (w : MainWorld) (device_type host query : String) : Option String :=
  match get_command_from_llm w.llm query device_type with
  | .error e => some e
  | .ok command =>
    match connect_to_device host w.connectOutcome with
    | .error ex => some (pyExcStr ex)
    | .ok _ =>
      match w.sendOutcome with
      | .error e => some e
      | .ok output =>
        match w.disconnectOutcome with
        | .error e => some e
        | .ok _ =>
          match summarize_output_with_llm w.llm command output device_type with
          | .error e => some e
          | .ok _ => none

/-! ## Concrete example inputs (used by witness theorems) -/

/-- A command line with an unsupported `--device_type`. -/
def cliUnsupported : CLIInput :=
  { device_type := some "linux", host := some "10.0.0.1", username := some "admin",
    port := none, password := some "pw" }

/-- A fully supplied, valid command line. -/
def cliGood : CLIInput :=
  { device_type := some "cisco_ios", host := some "10.0.0.1", username := some "admin",
    port := none, password := some "pw" }

/-- A command line omitting `--username`. -/
def cliNoUser : CLIInput :=
  { device_type := some "cisco_ios", host := some "10.0.0.1", username := none,
    port := none, password := some "pw" }

/-- A language-model oracle whose API call always fails. -/
def llmFail : LLMOracle := fun _ => .error "API rate limit"

/-- A language-model oracle that always completes successfully. -/
def llmOk : LLMOracle := fun _ => .ok "show version"

/-- World with the unsupported device type. -/
def wUnsupported : MainWorld :=
  { cli := cliUnsupported, fs := .missing, stdinUser := "alice", stdinPass := "pw2",
    stdinQuery := "what is the uptime", llm := llmFail, connectOutcome := .ok,
    sendOutcome := .ok "Uptime: 10 days", disconnectOutcome := .ok () }

/-- World invoked without `--username`. -/
def wNoUser : MainWorld := { wUnsupported with cli := cliNoUser }

/-- Valid command line, but the synthesis API call fails. -/
def wSynthFail : MainWorld := { wUnsupported with cli := cliGood }

/-- Valid command line and every collaborator succeeds. -/
def wHappy : MainWorld := { wSynthFail with llm := llmOk }

end NetworkLLM

namespace NetworkLLM

/-! ## Credential-table lemmas -/

theorem dictLookup_dictInsert_self (t : CredTable) (k : String) (v : String × String) :
    dictLookup (dictInsert t k v) k = some v := by
  induction t with
  | nil => simp [dictInsert, dictLookup]
  | cons p t ih =>
    by_cases hp : p.1 = k
    · simp [dictInsert, dictLookup, hp, List.find?]
    · cases ha : t.any (fun q => q.1 = k) with
      | true =>
        simp only [dictInsert, List.any_cons, ha, hp] at ih ⊢
        simp only [decide_eq_true_eq] at *
        simp [hp, ha, dictLookup, List.find?, hp] at ih ⊢
        simpa [dictLookup, List.find?, hp] using ih
      | false =>
        simp only [dictInsert, List.any_cons, ha, hp] at ih ⊢
        simp [hp, ha, dictLookup, List.find?] at ih ⊢
        simpa [dictLookup, List.find?, hp] using ih

theorem find?_replaceMap (t : CredTable) (k k' : String) (v : String × String) (h : k' ≠ k) :
    (t.map (fun p => if p.1 = k then (k, v) else p)).find? (fun p => p.1 = k')
      = t.find? (fun p => p.1 = k') := by
  induction t with
  | nil => rfl
  | cons p t ih =>
    by_cases hp : p.1 = k
    · have hp' : ¬ (p.1 = k') := by rw [hp]; exact fun hh => h hh.symm
      have hkv : ¬ (((k, v) : String × String × String).1 = k') := fun hh => h hh.symm
      simp only [List.map_cons, if_pos hp]
      rw [List.find?_cons_of_neg _ (by simpa using hkv), List.find?_cons_of_neg _ (by simpa using hp')]
      exact ih
    · simp only [List.map_cons, if_neg hp]
      by_cases hp' : p.1 = k'
      · rw [List.find?_cons_of_pos _ (by simpa using hp'), List.find?_cons_of_pos _ (by simpa using hp')]
      · rw [List.find?_cons_of_neg _ (by simpa using hp'), List.find?_cons_of_neg _ (by simpa using hp')]
        exact ih

theorem dictLookup_dictInsert_ne (t : CredTable) (k k' : String) (v : String × String)
    (h : k' ≠ k) : dictLookup (dictInsert t k v) k' = dictLookup t k' := by
  by_cases ha : t.any (fun q => q.1 = k)
  · unfold dictInsert dictLookup
    rw [if_pos ha, find?_replaceMap t k k' v h]
  · unfold dictInsert dictLookup
    rw [if_neg ha, List.find?_append]
    have hone : (([(k, v)] : CredTable).find? (fun p => p.1 = k')) = none := by
      simp [Ne.symm h]
    rw [hone, Option.or_none]

theorem dictInsert_idem (t : CredTable) (k : String) (v : String × String) :
    dictInsert (dictInsert t k v) k v = dictInsert t k v := by
  by_cases ha : t.any (fun q => q.1 = k)
  · have h1 : dictInsert t k v = t.map (fun p => if p.1 = k then (k, v) else p) := by
      simp [dictInsert, ha]
    have h2 : (t.map (fun p => if p.1 = k then (k, v) else p)).any (fun q => q.1 = k) = true := by
      rw [List.any_map]
      rw [List.any_eq_true] at ha ⊢
      obtain ⟨x, hx, hxk⟩ := ha
      refine ⟨x, hx, ?_⟩
      simp only [decide_eq_true_eq] at hxk
      simp [Function.comp, hxk]
    rw [h1]
    simp only [dictInsert, h2, if_true]
    rw [List.map_map]
    apply List.map_congr_left
    intro p _
    by_cases hp : p.1 = k <;> simp [Function.comp, hp]
  · have h1 : dictInsert t k v = t ++ [(k, v)] := by simp [dictInsert, ha]
    have h2 : ((t ++ [(k, v)]).any (fun q => q.1 = k)) = true := by simp
    rw [h1]
    simp only [dictInsert, h2, if_true]
    rw [List.map_append]
    have hnone : ∀ p ∈ t, ¬ (p.1 = k) := by
      intro p hp hcon
      exact ha (List.any_eq_true.mpr ⟨p, hp, by simp [hcon]⟩)
    have h3 : t.map (fun p => if p.1 = k then (k, v) else p) = t := by
      conv_rhs => rw [← List.map_id t]
      apply List.map_congr_left
      intro p hp
      simp [hnone p hp]
    simp [h3]

/-! ## Claim C3 -/

/-- Claim C3: for every host and every prior credential-file state,
`save_credentials` then `load_credentials` returns exactly the pair just
saved; a second, different save for the same host makes load return only the
newer values; and saving the identical triple twice leaves the file state
(hence the table's value for that host) unchanged. -/
theorem save_then_load_roundtrip (username password host : String) (f : CredFile) :
    load_credentials host (save_credentials username password host f)
      = (some username, some password)
    ∧ (∀ u2 p2, load_credentials host
        (save_credentials u2 p2 host (save_credentials username password host f))
          = (some u2, some p2))
    ∧ save_credentials username password host (save_credentials username password host f)
        = save_credentials username password host f := by
  refine ⟨?_, fun u2 p2 => ?_, ?_⟩
  · simp [save_credentials, load_credentials, dictLookup_dictInsert_self]
  · simp [save_credentials, load_credentials, readTable, dictLookup_dictInsert_self]
  · simp [save_credentials, readTable, dictInsert_idem]

/-! ## Claim C7 -/

/-- Claim C7: `load_credentials` is total (every exception path in the source
is caught) and returns `(none, none)` when the backing file is missing, when
it is unparseable, and when the host has no record; it returns the stored
pair exactly when the host is present. -/
theorem load_credentials_behavior (host : String) :
    load_credentials host .missing = (none, none)
    ∧ load_credentials host .corrupt = (none, none)
    ∧ (∀ t, dictLookup t host = none → load_credentials host (.table t) = (none, none))
    ∧ (∀ t u p, dictLookup t host = some (u, p) →
        load_credentials host (.table t) = (some u, some p)) := by
  refine ⟨rfl, rfl, fun t ht => ?_, fun t u p ht => ?_⟩ <;> simp [load_credentials, ht]

/-- Witness for C7 at concrete inputs. -/
theorem load_credentials_behavior_witness :
    load_credentials "r1" (.table [("r2", ("u", "p"))]) = (none, none)
    ∧ load_credentials "r2" (.table [("r2", ("u", "p"))]) = (some "u", some "p") := by
  refine ⟨(load_credentials_behavior "r1").2.2.1 [("r2", ("u", "p"))] (by decide), ?_⟩
  exact (load_credentials_behavior "r2").2.2.2 [("r2", ("u", "p"))] "u" "p" (by decide)

/-! ## Claim C8 -/

/-- Claim C8: `save_credentials` starts from the empty table whenever the
backing file is missing or corrupt, rewrites the whole file as a table, and
touches only the given host's record: for every other host the
load-observable record is unchanged by the save. -/
theorem save_credentials_frame (username password host : String) :
    save_credentials username password host .missing
      = .table [(host, (username, password))]
    ∧ save_credentials username password host .corrupt
      = .table [(host, (username, password))]
    ∧ (∀ f, ∃ t, save_credentials username password host f = .table t)
    ∧ (∀ f h2, h2 ≠ host →
        load_credentials h2 (save_credentials username password host f)
          = load_credentials h2 f) := by
    refine ⟨rfl, rfl, fun f => ⟨_, rfl⟩, fun f h2 hne => ?_⟩
    cases f with
    | missing =>
      simp [save_credentials, load_credentials, readTable, dictInsert, dictLookup, Ne.symm hne]
    | corrupt =>
      simp [save_credentials, load_credentials, readTable, dictInsert, dictLookup, Ne.symm hne]
    | table t =>
      have hlk := dictLookup_dictInsert_ne t host h2 (username, password) hne
      simp [save_credentials, load_credentials, readTable, hlk]

/-- Witness for C8 at concrete inputs. -/
theorem save_credentials_frame_witness :
    load_credentials "r2" (save_credentials "u" "p" "r1" (.table [("r2", ("v", "q"))]))
      = load_credentials "r2" (.table [("r2", ("v", "q"))]) :=
  (save_credentials_frame "u" "p" "r1").2.2.2 (.table [("r2", ("v", "q"))]) "r2" (by decide)

/-! ## Claim C4 -/

/-- Claim C4: `connect_to_device` classifies every session-open failure —
timeout, authentication rejection, any other exception — into a single
uniform `ConnectionError` with a kind-distinguishing message, and never lets
a transport-specific exception type reach the caller. -/
theorem connect_uniform_connection_error (host : String) :
    connect_to_device host .timeout = .error (.connectionError (timeoutMsg host))
    ∧ connect_to_device host .authFail = .error (.connectionError (authFailMsg host))
    ∧ (∀ m, connect_to_device host (.otherError m)
        = .error (.connectionError (otherFailMsg host m)))
    ∧ (∀ o e, connect_to_device host o = .error e → ∃ msg, e = .connectionError msg)
    ∧ (∀ o, o ≠ .ok → ∃ msg, connect_to_device host o = .error (.connectionError msg))
    ∧ timeoutMsg host ≠ authFailMsg host
    ∧ (∀ m, timeoutMsg host ≠ otherFailMsg host m)
    ∧ (∀ m, authFailMsg host ≠ otherFailMsg host m) := by
  refine ⟨rfl, rfl, fun m => rfl, ?_, ?_, ?_, ?_, ?_⟩
  · intro o e h
    cases o with
    | ok => exact absurd h (by simp [connect_to_device])
    | timeout => simp [connect_to_device] at h; exact ⟨_, h.symm⟩
    | authFail => simp [connect_to_device] at h; exact ⟨_, h.symm⟩
    | otherError m => simp [connect_to_device] at h; exact ⟨_, h.symm⟩
  · intro o ho
    cases o with
    | ok => exact absurd rfl ho
    | timeout => exact ⟨_, rfl⟩
    | authFail => exact ⟨_, rfl⟩
    | otherError m => exact ⟨_, rfl⟩
  · intro hcon
    have h2 := congrArg String.data hcon
    simp [timeoutMsg, authFailMsg, String.data_append] at h2
  · intro m hcon
    have h2 := congrArg String.data hcon
    simp [timeoutMsg, otherFailMsg, String.data_append] at h2
  · intro m hcon
    have h2 := congrArg String.data hcon
    simp [authFailMsg, otherFailMsg, String.data_append] at h2

/-- Witness for C4 at concrete inputs. -/
theorem connect_uniform_connection_error_witness :
    (∃ msg, (PyExc.connectionError (timeoutMsg "r1")) = .connectionError msg)
    ∧ (∃ msg, connect_to_device "r1" .timeout = .error (.connectionError msg)) := by
  constructor
  · exact (connect_uniform_connection_error "r1").2.2.2.1 .timeout _ rfl
  · exact (connect_uniform_connection_error "r1").2.2.2.2.1 .timeout (by decide)

/-! ## Claim C1 -/

/-- Claim C1: `NetworkQueryProcessor.__init__` succeeds for every tag in the
supported table and fails with a `ValueError` naming the supported types for
every tag outside it; an invocation carrying an unsupported tag never reaches
a connection attempt (no network call). -/
theorem init_validates_device_type (dt host username password : String) (port : Nat) :
    (supportedTag dt = true →
      NetworkQueryProcessor_init dt host username password port
        = .ok { device_type := dt, host := host, username := username,
                password := password, port := port })
    ∧ (supportedTag dt = false →
      NetworkQueryProcessor_init dt host username password port
        = .error (.valueError unsupportedTypeMsg))
    ∧ (supportedTag dt = false → ∀ (w : MainWorld), w.cli.device_type = some dt →
        ∀ h, Ev.connectAttempt h ∉ (runMain w).1)
    ∧ unsupportedTypeMsg = "Unsupported device type. Supported types: cisco_ios, cisco_nxos, arista_eos, juniper_junos, fortinet, paloalto_panos" := by
  refine ⟨fun hs => ?_, fun hn => ?_, fun hn w hw h => ?_, by decide⟩
  · simp [NetworkQueryProcessor_init, hs]
  · simp [NetworkQueryProcessor_init, hn]
  · have hp : parseArgs w.cli = .error ("argument --device_type: invalid choice: " ++ dt) := by
      unfold parseArgs
      rw [hw]
      simp [hn]
    unfold runMain
    rw [hp]
    simp

/-- Witness for C1 at concrete inputs. -/
theorem init_validates_device_type_witness :
    (NetworkQueryProcessor_init "cisco_ios" "10.0.0.1" "admin" "pw" 22
      = .ok { device_type := "cisco_ios", host := "10.0.0.1", username := "admin",
              password := "pw", port := 22 })
    ∧ (NetworkQueryProcessor_init "linux" "10.0.0.1" "admin" "pw" 22
      = .error (.valueError unsupportedTypeMsg))
    ∧ Ev.connectAttempt "10.0.0.1" ∉ (runMain wUnsupported).1 := by
  refine ⟨(init_validates_device_type "cisco_ios" "10.0.0.1" "admin" "pw" 22).1 (by decide),
    (init_validates_device_type "linux" "10.0.0.1" "admin" "pw" 22).2.1 (by decide), ?_⟩
  exact (init_validates_device_type "linux" "10.0.0.1" "admin" "pw" 22).2.2.1
    (by decide) wUnsupported rfl "10.0.0.1"

/-! ## Orchestrator lemmas -/

theorem parseArgs_ok_supported {c : CLIInput} {args : Args}
    (h : parseArgs c = .ok args) : supportedTag args.device_type = true := by
  unfold parseArgs at h
  split at h
  · exact absurd h (by simp)
  next dt =>
    split at h
    next hs =>
      split at h
      · exact absurd h (by simp)
      · split at h
        · exact absurd h (by simp)
        · injection h with h2
          rw [← h2]
          exact hs
    · exact absurd h (by simp)

theorem runMain_parse_ok {w : MainWorld} {args : Args}
    (hp : parseArgs w.cli = .ok args)
    (hs : supportedTag args.device_type = true) :
    runMain w =
      (credPromptEvents w args
        ++ [Ev.saveCreds (resolvedUsername w args) (resolvedPassword w args) args.host,
            Ev.readQuery]
        ++ runPipeline w args.device_type args.host w.stdinQuery,
       save_credentials (resolvedUsername w args) (resolvedPassword w args) args.host w.fs) := by
  unfold runMain
  rw [hp]
  simp [NetworkQueryProcessor_init, hs]

theorem mem_credPromptEvents {w : MainWorld} {args : Args} {e : Ev}
    (he : e ∈ credPromptEvents w args) : e = Ev.promptUser ∨ e = Ev.promptPass := by
  unfold credPromptEvents at he
  rcases List.mem_append.mp he with h | h
  · split at h
    · exact .inl (by simpa using h)
    · simp at h
  · split at h
    · exact .inr (by simpa using h)
    · simp at h

/-! ## Claim C2 -/

/-- Claim C2 (code evaluation): `--username` is declared with
`required=True`, so an invocation omitting it is rejected by argparse before
the cached-credential fallback or the interactive username prompt can run;
the fallback chain in `main` (lines 151-154) is unreachable for an omitted
flag. The spec's claim that the flag is optional contradicts the code. -/
theorem username_required_blocks_fallback :
    parseArgs cliNoUser = .error "the following arguments are required: --username"
    ∧ (runMain wNoUser).1
        = [.argparseExit "the following arguments are required: --username"]
    ∧ Ev.promptUser ∉ (runMain wNoUser).1
    ∧ (∀ u p h, Ev.saveCreds u p h ∉ (runMain wNoUser).1) := by
  refine ⟨rfl, rfl, by decide, fun u p h hmem => ?_⟩
  have heq : (runMain wNoUser).1
      = [.argparseExit "the following arguments are required: --username"] := rfl
  rw [heq] at hmem
  simp at hmem

/-! ## Claim C5 -/

/-- Claim C5: when the synthesis call fails, the pipeline terminates at the
Failed state (the handler's `Error:` print is the final event) without ever
invoking the gateway's open operation — no connection attempt, no command
send. -/
theorem synthesis_failure_aborts_before_connect (w : MainWorld) (args : Args)
    (hp : parseArgs w.cli = .ok args) (e : String)
    (hf : w.llm (commandRequest w.stdinQuery args.device_type) = .error e) :
    (∀ h, Ev.connectAttempt h ∉ (runMain w).1)
    ∧ (∀ c, Ev.sendCmd c ∉ (runMain w).1)
    ∧ (runMain w).1.getLast? = some (.printError e) := by
  have hs := parseArgs_ok_supported hp
  have hrm := runMain_parse_ok hp hs
  have hpip : runPipeline w args.device_type args.host w.stdinQuery
      = [Ev.llmSynth (commandRequest w.stdinQuery args.device_type), .printError e] := by
    unfold runPipeline get_command_from_llm
    rw [hf]
    rfl
  rw [hrm]
  simp only [hpip]
  refine ⟨fun h hmem => ?_, fun c hmem => ?_, ?_⟩
  · rcases List.mem_append.mp hmem with hm | hm
    · rcases List.mem_append.mp hm with hm2 | hm2
      · rcases mem_credPromptEvents hm2 with h2 | h2 <;> exact absurd h2 (by simp)
      · simp at hm2
    · simp at hm
  · rcases List.mem_append.mp hmem with hm | hm
    · rcases List.mem_append.mp hm with hm2 | hm2
      · rcases mem_credPromptEvents hm2 with h2 | h2 <;> exact absurd h2 (by simp)
      · simp at hm2
    · simp at hm
  · simp

/-- Witness for C5: a concrete world whose synthesis API call fails. -/
theorem synthesis_failure_aborts_witness :
    (∀ h, Ev.connectAttempt h ∉ (runMain wSynthFail).1)
    ∧ (runMain wSynthFail).1.getLast? = some (.printError "API rate limit") := by
  have h := synthesis_failure_aborts_before_connect wSynthFail
    { device_type := "cisco_ios", host := "10.0.0.1", username := "admin",
      port := 22, password := some "pw" } rfl "API rate limit" rfl
  exact ⟨h.1, h.2.2⟩

/-! ## Claim C6 -/

theorem llmSummarize_mem_runPipeline {w : MainWorld} {dt host query : String}
    {req : ChatRequest} (h : Ev.llmSummarize req ∈ runPipeline w dt host query) :
    ∃ command output,
      get_command_from_llm w.llm query dt = .ok command
      ∧ w.sendOutcome = .ok output
      ∧ req = summarizeRequest command output dt
      ∧ Ev.sendCmd command ∈ runPipeline w dt host query := by
  unfold runPipeline at h ⊢
  cases hg : get_command_from_llm w.llm query dt with
  | error e => simp only [hg] at h; simp at h
  | ok command =>
    cases hc : connect_to_device host w.connectOutcome with
    | error ex => simp only [hg, hc] at h; simp at h
    | ok u =>
      cases hsend : w.sendOutcome with
      | error e => simp only [hg, hc, hsend] at h; simp at h
      | ok output =>
        cases hd : w.disconnectOutcome with
        | error e => simp only [hg, hc, hsend, hd] at h; simp at h
        | ok u2 =>
          cases hsum : summarize_output_with_llm w.llm command output dt with
          | error e =>
            simp only [hg, hc, hsend, hd, hsum] at h
            simp at h
            exact ⟨command, output, rfl, rfl, h, by simp⟩
          | ok s =>
            simp only [hg, hc, hsend, hd, hsum] at h
            simp at h
            exact ⟨command, output, rfl, rfl, h, by simp⟩

/-- Claim C6: whenever the summarizer is invoked, its request is exactly
`summarizeRequest` built from the synthesized command and the verbatim string
`send_command` returned — never an empty stand-in — and that raw output is
embedded whole (the prompt literally ends with it, no truncation). -/
theorem summarizer_receives_verbatim_output (w : MainWorld) (req : ChatRequest)
    (h : Ev.llmSummarize req ∈ (runMain w).1) :
    ∃ args command output,
      parseArgs w.cli = .ok args
      ∧ w.sendOutcome = .ok output
      ∧ Ev.sendCmd command ∈ (runMain w).1
      ∧ req = summarizeRequest command output args.device_type
      ∧ ∃ pre, req.user = pre ++ output := by
  cases hp : parseArgs w.cli with
  | error m =>
    unfold runMain at h
    rw [hp] at h
    simp at h
  | ok args =>
    have hs := parseArgs_ok_supported hp
    have hrm := runMain_parse_ok hp hs
    rw [hrm] at h
    rcases List.mem_append.mp h with hm | hm
    · rcases List.mem_append.mp hm with hm2 | hm2
      · rcases mem_credPromptEvents hm2 with h2 | h2 <;> simp at h2
      · simp at hm2
    · obtain ⟨command, output, hg, hsend, hreq, hmemsend⟩ := llmSummarize_mem_runPipeline hm
      refine ⟨args, command, output, rfl, hsend, ?_, hreq, ?_⟩
      · rw [hrm]
        exact List.mem_append.mpr (.inr hmemsend)
      · rw [hreq]
        exact ⟨_, rfl⟩

/-- Witness for C6: in the all-success world the summarizer is invoked and
its user prompt ends with the device's raw output. -/
theorem summarizer_receives_verbatim_witness :
    Ev.llmSummarize (summarizeRequest ("show version".trim) "Uptime: 10 days" "cisco_ios")
        ∈ (runMain wHappy).1
    ∧ ∃ args command output,
        parseArgs wHappy.cli = .ok args
        ∧ wHappy.sendOutcome = .ok output
        ∧ Ev.sendCmd command ∈ (runMain wHappy).1
        ∧ summarizeRequest ("show version".trim) "Uptime: 10 days" "cisco_ios"
            = summarizeRequest command output args.device_type
        ∧ ∃ pre, (summarizeRequest ("show version".trim) "Uptime: 10 days" "cisco_ios").user
            = pre ++ output := by
  have htr : (runMain wHappy).1
      = [Ev.saveCreds "admin" "pw" "10.0.0.1", Ev.readQuery,
         Ev.llmSynth (commandRequest "what is the uptime" "cisco_ios"),
         Ev.print ("\nGenerated command: " ++ "show version".trim ++ "\n"),
         Ev.print ("Connecting to " ++ "10.0.0.1" ++ "..."),
         Ev.connectAttempt "10.0.0.1",
         Ev.print ("Successfully connected to " ++ "10.0.0.1"),
         Ev.print ("Running command: " ++ "show version".trim),
         Ev.sendCmd ("show version".trim),
         Ev.print "\n--- Raw Command Output ---\n",
         Ev.print "Uptime: 10 days",
         Ev.disconnect,
         Ev.llmSummarize (summarizeRequest ("show version".trim) "Uptime: 10 days" "cisco_ios"),
         Ev.print "\n--- LLM Summary ---\n",
         Ev.print ("show version".trim)] := rfl
  have hmem : Ev.llmSummarize (summarizeRequest ("show version".trim) "Uptime: 10 days" "cisco_ios")
      ∈ (runMain wHappy).1 := by
    rw [htr]
    simp
  exact ⟨hmem, summarizer_receives_verbatim_output wHappy _ hmem⟩

/-! ## Claim C9 -/

/-- Claim C9 counterexample: with `--device_type linux` — a configuration
failure — the run produces only argparse's usage error; no output line at all
is printed by `main`, in particular nothing carrying the `Error:` marker.
The claim that every pipeline failure including ConfigurationError is
reported with an `Error:` prefix is therefore false on this input. -/
theorem config_error_has_no_error_marker :
    (runMain wUnsupported).1
      = [.argparseExit ("argument --device_type: invalid choice: linux")]
    ∧ (∀ m, Ev.printError m ∉ (runMain wUnsupported).1)
    ∧ (∀ s, Ev.print s ∉ (runMain wUnsupported).1) := by
  have heq : (runMain wUnsupported).1
      = [.argparseExit ("argument --device_type: invalid choice: linux")] := rfl
  refine ⟨heq, fun m hm => ?_, fun s hs => ?_⟩
  · rw [heq] at hm; simp at hm
  · rw [heq] at hs; simp at hs

theorem credPromptEvents_no_errorPrint (w : MainWorld) (args : Args) :
    (credPromptEvents w args).countP isErrorPrint = 0 := by
  unfold credPromptEvents
  split <;> split <;> rfl

theorem runPipeline_ne_nil (w : MainWorld) (dt host query : String) :
    runPipeline w dt host query ≠ [] := by
  unfold runPipeline
  exact List.cons_ne_nil _ _

theorem runPipeline_reports (w : MainWorld) (dt host query : String) :
    (∀ e, pipelineError w dt host query = some e →
      (runPipeline w dt host query).getLast? = some (.printError e)
      ∧ (runPipeline w dt host query).countP isErrorPrint = 1)
    ∧ (pipelineError w dt host query = none →
      (runPipeline w dt host query).countP isErrorPrint = 0) := by
  unfold runPipeline pipelineError
  cases hg : get_command_from_llm w.llm query dt with
  | error e0 =>
    refine ⟨fun e he => ?_, fun he => ?_⟩ <;> simp_all [isErrorPrint]
  | ok command =>
    cases hc : connect_to_device host w.connectOutcome with
    | error ex =>
      refine ⟨fun e he => ?_, fun he => ?_⟩ <;> simp_all [isErrorPrint]
    | ok u =>
      cases hsend : w.sendOutcome with
      | error e0 =>
        refine ⟨fun e he => ?_, fun he => ?_⟩ <;> simp_all [isErrorPrint]
      | ok output =>
        cases hd : w.disconnectOutcome with
        | error e0 =>
          refine ⟨fun e he => ?_, fun he => ?_⟩ <;> simp_all [isErrorPrint]
        | ok u2 =>
          cases hsum : summarize_output_with_llm w.llm command output dt with
          | error e0 =>
            refine ⟨fun e he => ?_, fun he => ?_⟩ <;> simp_all [isErrorPrint]
          | ok s =>
            refine ⟨fun e he => ?_, fun he => ?_⟩ <;> simp_all [isErrorPrint]

/-- Claim C9 amended: every failure raised inside the `try` block —
synthesis, connection, execution, disconnect, or summarization — is reported
as exactly one `Error:`-prefixed plain-text line (the handler's print), which
is the final event of the run; when no such failure occurs there is no
`Error:` print.  An unsupported device type, by contrast, is rejected by
argparse before the pipeline and gets no `Error:`-prefixed diagnostic. -/
theorem try_block_failures_error_prefixed (w : MainWorld) (args : Args)
    (hp : parseArgs w.cli = .ok args) :
    (∀ e, pipelineError w args.device_type args.host w.stdinQuery = some e →
      (runMain w).1.getLast? = some (.printError e)
      ∧ (runMain w).1.countP isErrorPrint = 1)
    ∧ (pipelineError w args.device_type args.host w.stdinQuery = none →
      (runMain w).1.countP isErrorPrint = 0) := by
  have hs := parseArgs_ok_supported hp
  rw [runMain_parse_ok hp hs]
  have h0 := credPromptEvents_no_errorPrint w args
  have hrep := runPipeline_reports w args.device_type args.host w.stdinQuery
  have hmid : List.countP isErrorPrint
      [Ev.saveCreds (resolvedUsername w args) (resolvedPassword w args) args.host,
       Ev.readQuery] = 0 := rfl
  constructor
  · intro e he
    obtain ⟨hl, hc⟩ := hrep.1 e he
    constructor
    · rw [List.getLast?_append_of_ne_nil _
        (runPipeline_ne_nil w args.device_type args.host w.stdinQuery), hl]
    · rw [List.countP_append, List.countP_append, h0, hmid, hc]
  · intro he
    rw [List.countP_append, List.countP_append, h0, hmid, hrep.2 he]

/-- Witness for C9 (amended): the synthesis-failure world prints exactly one
`Error:` line, as its last event. -/
theorem try_block_failures_witness :
    pipelineError wSynthFail "cisco_ios" "10.0.0.1" "what is the uptime"
      = some "API rate limit"
    ∧ (runMain wSynthFail).1.getLast? = some (.printError "API rate limit")
    ∧ (runMain wSynthFail).1.countP isErrorPrint = 1 := by
  have h := (try_block_failures_error_prefixed wSynthFail
    { device_type := "cisco_ios", host := "10.0.0.1", username := "admin",
      port := 22, password := some "pw" } rfl).1 "API rate limit" rfl
  exact ⟨rfl, h.1, h.2⟩

/-! ## Claim C10 -/

theorem saveCreds_not_mem_runPipeline (w : MainWorld) (dt host query u p h : String) :
    Ev.saveCreds u p h ∉ runPipeline w dt host query := by
  intro he
  unfold runPipeline at he
  cases hg : get_command_from_llm w.llm query dt with
  | error e0 => simp only [hg] at he; simp at he
  | ok command =>
    cases hc : connect_to_device host w.connectOutcome with
    | error ex => simp only [hg, hc] at he; simp at he
    | ok uu =>
      cases hsend : w.sendOutcome with
      | error e0 => simp only [hg, hc, hsend] at he; simp at he
      | ok output =>
        cases hd : w.disconnectOutcome with
        | error e0 => simp only [hg, hc, hsend, hd] at he; simp at he
        | ok u2 =>
          cases hsum : summarize_output_with_llm w.llm command output dt with
          | error e0 => simp only [hg, hc, hsend, hd, hsum] at he; simp at he
          | ok s => simp only [hg, hc, hsend, hd, hsum] at he; simp at he

/-- Claim C10: on every parse-accepted invocation the resolved credentials
are saved exactly once — before the natural-language query is read, before
any language-model call and before any connection attempt (the only events
allowed earlier are the interactive credential prompts) — and the final
credential file therefore contains the resolved record for the host no
matter how the later pipeline stages end. -/
theorem credentials_saved_once_before_pipeline (w : MainWorld) (args : Args)
    (hp : parseArgs w.cli = .ok args) :
    ∃ pre post,
      (runMain w).1 = pre
        ++ Ev.saveCreds (resolvedUsername w args) (resolvedPassword w args) args.host
        :: Ev.readQuery :: post
      ∧ (∀ e ∈ pre, e = Ev.promptUser ∨ e = Ev.promptPass)
      ∧ (∀ u p h, Ev.saveCreds u p h ∉ pre)
      ∧ (∀ u p h, Ev.saveCreds u p h ∉ post)
      ∧ Ev.readQuery ∉ pre
      ∧ (∀ r, Ev.llmSynth r ∉ pre)
      ∧ (∀ h, Ev.connectAttempt h ∉ pre)
      ∧ load_credentials args.host (runMain w).2
          = (some (resolvedUsername w args), some (resolvedPassword w args)) := by
  have hs := parseArgs_ok_supported hp
  rw [runMain_parse_ok hp hs]
  refine ⟨credPromptEvents w args,
    runPipeline w args.device_type args.host w.stdinQuery,
    by simp, fun e he => mem_credPromptEvents he,
    fun u p h hmem => ?_, fun u p h hmem => ?_, fun hmem => ?_,
    fun r hmem => ?_, fun h hmem => ?_, ?_⟩
  · rcases mem_credPromptEvents hmem with h2 | h2 <;> simp at h2
  · exact saveCreds_not_mem_runPipeline w args.device_type args.host w.stdinQuery u p h hmem
  · rcases mem_credPromptEvents hmem with h2 | h2 <;> simp at h2
  · rcases mem_credPromptEvents hmem with h2 | h2 <;> simp at h2
  · rcases mem_credPromptEvents hmem with h2 | h2 <;> simp at h2
  · simp [save_credentials, load_credentials, dictLookup_dictInsert_self]

/-- Witness for C10: even though synthesis fails in `wSynthFail`, the
credential record for the host is in the final file. -/
theorem credentials_saved_once_witness :
    load_credentials "10.0.0.1" (runMain wSynthFail).2 = (some "admin", some "pw") := by
  obtain ⟨pre, post, _, _, _, _, _, _, _, hload⟩ :=
    credentials_saved_once_before_pipeline wSynthFail
      { device_type := "cisco_ios", host := "10.0.0.1", username := "admin",
        port := 22, password := some "pw" } rfl
  exact hload

end NetworkLLM
